import Mathlib

/-
Verification development for the KulaPay loyalty-and-micro-credit ledger.

The Python sources (ussd_logic.py, services.py, whatsapp_logic.py,
messaging_service.py, messaging_handler.py, main.py, at_utils.py, models.py)
are shallowly embedded below.  Conventions of the embedding:

* Currency amounts and loyalty points are modelled as rationals; the
  numeric literals appearing in the repository are exactly representable.
* The database session is an explicit value of type DB holding the three
  tables (vendors, customers, transactions); ORM query/commit calls become
  pure list operations, and every stateful Python function returns its
  result together with the updated DB.
* Python string primitives (split, strip, upper, lower, startswith,
  replace, float(...), f-string formatting with :.2f, substring tests) are
  re-implemented structurally on the character list underlying String so
  that concrete runs can be evaluated inside proofs.
-/

/-- Auxiliary worker for splitBy: walks the character list, cutting a new
token whenever the predicate holds, preserving empty tokens exactly like
the Python str.split(sep) convention with an explicit separator. -/
def splitByAux (p : Char → Bool) : List Char → List Char → List String
  | [], acc => [String.mk acc.reverse]
  | c :: rest, acc =>
    if p c then String.mk acc.reverse :: splitByAux p rest []
    else splitByAux p rest (c :: acc)

/-- Models Python text.split(sep) for a one-character separator described by
the predicate p: empty intermediate tokens are preserved. -/
def splitBy (p : Char → Bool) (s : String) : List String :=
  splitByAux p s.data []

/-- Models Python str.split() with no argument: split on whitespace runs and
drop all empty tokens. -/
def pySplitWs (s : String) : List String :=
  (splitBy Char.isWhitespace s).filter (fun t => !(t == ""))

/-- Models Python str.strip(): remove leading and trailing whitespace. -/
def pyStrip (s : String) : String :=
  String.mk (((s.data.dropWhile Char.isWhitespace).reverse.dropWhile Char.isWhitespace).reverse)

/-- Models Python str.upper() for the ASCII command keywords used here. -/
def pyUpper (s : String) : String :=
  String.mk (s.data.map Char.toUpper)

/-- Models Python str.lower() for the ASCII command keywords used here. -/
def pyLower (s : String) : String :=
  String.mk (s.data.map Char.toLower)

/-- Models Python str.startswith. -/
def pyStartsWith (s pre : String) : Bool :=
  pre.data.isPrefixOf s.data

/-- Models Python slicing text[n:] (by characters). -/
def pyDropChars (n : Nat) (s : String) : String :=
  String.mk (s.data.drop n)

/-- Models Python str.replace(c, "") for a one-character pattern: every
occurrence of the character is removed. -/
def pyRemoveChar (c : Char) (s : String) : String :=
  String.mk (s.data.filter (fun a => !(a == c)))

/-- Worker for the Python substring test: does pat occur inside the list. -/
def containsSubAux (pat : List Char) : List Char → Bool
  | [] => pat.isEmpty
  | c :: rest => pat.isPrefixOf (c :: rest) || containsSubAux pat rest

/-- Models the Python test pat in s (substring containment). -/
def pyContainsSub (s pat : String) : Bool :=
  containsSubAux pat.data s.data

/-- Models Python sep.join(parts). -/
def pyJoin (sep : String) : List String → String
  | [] => ""
  | [x] => x
  | x :: rest => x ++ sep ++ pyJoin sep rest

/-- Models the Python builtin min on two numbers. -/
def pyMin (a b : ℚ) : ℚ := if a ≤ b then a else b

/-- Models the Python builtin max on two numbers. -/
def pyMaxQ (a b : ℚ) : ℚ := if a ≤ b then b else a

/-- Value of a digit list read in base 10. -/
def digitsToNat (cs : List Char) : Nat :=
  cs.foldl (fun n c => 10 * n + (c.toNat - 48)) 0

/-- Models Python float(s) restricted to plain decimal literals: an optional
sign followed by digits with an optional fractional part (at least one digit
overall).  Exponents, infinities and embedded whitespace — which never occur
in the inputs of this repository — are not modelled and yield none, exactly like
the ValueError branches that consume this parse.  Values are exact
rationals. -/
def pyFloat? (s : String) : Option ℚ :=
  let signed : ℚ × List Char :=
    match s.data with
    | '-' :: rest => (-1, rest)
    | '+' :: rest => (1, rest)
    | cs => (1, cs)
  let sign := signed.1
  let cs := signed.2
  let intPart := cs.takeWhile Char.isDigit
  let rest := cs.dropWhile Char.isDigit
  match rest with
  | [] =>
    if intPart.isEmpty then none
    else some (sign * (digitsToNat intPart : ℚ))
  | '.' :: frac =>
    if frac.all Char.isDigit && !(intPart.isEmpty && frac.isEmpty) then
      some (sign * ((digitsToNat intPart : ℚ) + (digitsToNat frac : ℚ) / ((10 : ℚ) ^ frac.length)))
    else none
  | _ => none

/-- Models the Python f-string format specifier :.2f on the exact rational
value: sign, integer part, and two fractional digits with rounding half
away from zero (the binary-float half-even edge cases never arise for the
amounts handled by this repository). -/
def formatQ2 (q : ℚ) : String :=
  let sign := if q < 0 then "-" else ""
  let a := if q < 0 then -q else q
  let n : Nat := (200 * a.num.toNat + a.den) / (2 * a.den)
  let whole := n / 100
  let frac := n % 100
  let fracStr := if frac < 10 then "0" ++ toString frac else toString frac
  sign ++ (toString whole ++ ("." ++ fracStr))

/-- Payment type enumeration from models.py. -/
inductive PaymentType where
  | CASH
  | MPESA
  | CREDIT
deriving DecidableEq

/-- The .value attribute of the PaymentType enum members. -/
def PaymentType.value : PaymentType → String
  | .CASH => "Cash"
  | .MPESA => "M-Pesa"
  | .CREDIT => "Credit"

/-- Vendor row from models.py (id, unique phone_number, business_name; the
created_at timestamp is not consulted by any logic and is omitted). -/
structure Vendor where
  id : Nat
  phone_number : String
  business_name : String
deriving DecidableEq

/-- Customer row from models.py (unique phone_number, kula_points,
credit_limit; the surrogate id is not consulted by any logic). -/
structure Customer where
  phone_number : String
  kula_points : ℚ
  credit_limit : ℚ
deriving DecidableEq

/-- Transaction row from models.py (vendor_id, customer_phone, amount,
payment_type; the surrogate id and timestamp are not consulted by any of
the logic under verification). -/
structure Transaction where
  vendor_id : Nat
  customer_phone : String
  amount : ℚ
  payment_type : PaymentType
deriving DecidableEq

/-- Database state: the three tables. -/
structure DB where
  vendors : List Vendor
  customers : List Customer
  transactions : List Transaction
deriving DecidableEq

/-- Models db.query(Vendor).filter(Vendor.phone_number == phone).first(). -/
def DB.findVendor (db : DB) (phone : String) : Option Vendor :=
  db.vendors.find? (fun v => v.phone_number == phone)

/-- Models db.query(Customer).filter(Customer.phone_number == phone).first(). -/
def DB.findCustomer (db : DB) (phone : String) : Option Customer :=
  db.customers.find? (fun c => c.phone_number == phone)

/-- Models db.add(customer); db.commit() for a fresh customer row. -/
def DB.addCustomer (db : DB) (c : Customer) : DB :=
  { db with customers := db.customers ++ [c] }

/-- Models db.add(transaction); db.commit() for a fresh transaction row. -/
def DB.addTransaction (db : DB) (t : Transaction) : DB :=
  { db with transactions := db.transactions ++ [t] }

/-- Models mutating the customer row with the given phone number and
committing (the phone number is unique, so at most one row changes). -/
def DB.updateCustomer (db : DB) (phone : String) (f : Customer → Customer) : DB :=
  { db with customers := db.customers.map (fun c => if c.phone_number == phone then f c else c) }

/-- Policy constant from services.py: 1 point per 10 KES. -/
def POINTS_PER_KES : ℚ := 0.1

/-- Policy constant from services.py: points needed for a free Mandazi. -/
def MANDAZI_COST_POINTS : ℚ := 50

/-- Policy constant from services.py. -/
def MIN_TRANSACTIONS_FOR_CREDIT : Nat := 5

/-- Policy constant from services.py. -/
def MIN_SPEND_FOR_CREDIT : ℚ := 500

/-- Policy constant from services.py: 20 percent of total spend. -/
def CREDIT_LIMIT_PERCENTAGE : ℚ := 0.2

/-- Policy constant from services.py. -/
def MAX_CREDIT_LIMIT : ℚ := 300

/-- Embedding of services.award_points: computes the points, then either
increments the existing customer row or creates one holding the points, and
returns the points earned together with the updated database. -/
def award_points (customer_phone : String) (amount : ℚ) (db : DB) : ℚ × DB :=
  let points_earned := amount * POINTS_PER_KES
  match db.findCustomer customer_phone with
  | some _ =>
    (points_earned,
      db.updateCustomer customer_phone (fun c => { c with kula_points := c.kula_points + points_earned }))
  | none =>
    (points_earned,
      db.addCustomer { phone_number := customer_phone, kula_points := points_earned, credit_limit := 0 })

/-- Result dictionary of services.check_credit_eligibility. -/
structure EligibilityResult where
  eligible : Bool
  transaction_count : Nat
  total_spend : ℚ
  credit_limit : ℚ
  message : String
deriving DecidableEq

/-- Embedding of services.check_credit_eligibility: aggregates the
non-Credit transactions of the customer, decides eligibility against the two
policy thresholds, computes the capped credit limit, persists the limit
onto the customer row when eligible, and builds the descriptive message. -/
def check_credit_eligibility (customer_phone : String) (db : DB) : EligibilityResult × DB :=
  let transactions := db.transactions.filter
    (fun t => t.customer_phone == customer_phone && !(t.payment_type == PaymentType.CREDIT))
  let transaction_count := transactions.length
  let total_spend := (transactions.map Transaction.amount).sum
  let eligible := decide (MIN_TRANSACTIONS_FOR_CREDIT ≤ transaction_count)
    && decide (MIN_SPEND_FOR_CREDIT ≤ total_spend)
  let credit_limit := if eligible then pyMin (total_spend * CREDIT_LIMIT_PERCENTAGE) MAX_CREDIT_LIMIT else 0
  let db1 :=
    if eligible && (db.findCustomer customer_phone).isSome then
      db.updateCustomer customer_phone (fun c => { c with credit_limit := credit_limit })
    else db
  let message :=
    if eligible then "Available Credit: KES " ++ formatQ2 credit_limit
    else
      let remaining_transactions := MIN_TRANSACTIONS_FOR_CREDIT - transaction_count
      let remaining_spend := pyMaxQ 0 (MIN_SPEND_FOR_CREDIT - total_spend)
      "Keep buying to unlock credit. Need " ++ (toString remaining_transactions ++
        (" more transactions and " ++ (formatQ2 remaining_spend ++ " KES more.")))
  ({ eligible := eligible, transaction_count := transaction_count, total_spend := total_spend,
     credit_limit := credit_limit, message := message }, db1)

/-- Result dictionary of services.get_customer_points_info. -/
structure PointsInfo where
  points : ℚ
  points_to_mandazi : ℚ
  message : String
deriving DecidableEq

/-- Embedding of services.get_customer_points_info (read-only). -/
def get_customer_points_info (customer_phone : String) (db : DB) : PointsInfo :=
  match db.findCustomer customer_phone with
  | none =>
    { points := 0, points_to_mandazi := MANDAZI_COST_POINTS, message := "Customer not found." }
  | some customer =>
    let points := customer.kula_points
    let points_to_mandazi := pyMaxQ 0 (MANDAZI_COST_POINTS - points)
    let message :=
      if MANDAZI_COST_POINTS ≤ points then
        "You have " ++ (formatQ2 points ++ " KulaPoints. You can get a free Mandazi!")
      else
        "You have " ++ (formatQ2 points ++ (" KulaPoints. Spend " ++
          (formatQ2 (points_to_mandazi * 10) ++ " more to get a free Mandazi!")))
    { points := points, points_to_mandazi := points_to_mandazi, message := message }

/-- Embedding of ussd_logic.parse_ussd_text: empty input gives no steps,
otherwise split on the star delimiter (empty tokens preserved). -/
def parse_ussd_text (text : String) : List String :=
  if text = "" then [] else splitBy (fun c => c == '*') text

/-- Embedding of ussd_logic.get_menu_level. -/
def get_menu_level (text : String) : Nat :=
  if text = "" then 0 else (splitBy (fun c => c == '*') text).length

/-- Embedding of ussd_logic.handle_new_sale.  List indexing in the source is
always in range at its call sites (the level equals the list length); getD
with a default supplies the same total behaviour. -/
def handle_new_sale (menu_selections : List String) (menu_level : Nat)
    (vendor_phone : String) (db : DB) : String × DB :=
  if menu_level = 1 then ("CON Enter Customer Phone Number:", db)
  else if menu_level = 2 then
    let customer_phone := menu_selections.getD 1 ""
    if customer_phone = "" ∨ customer_phone.length < 10 then
      ("END Invalid phone number. Please try again.", db)
    else ("CON Enter Amount:", db)
  else if menu_level = 3 then
    match pyFloat? (menu_selections.getD 2 "") with
    | none => ("END Invalid amount. Please try again.", db)
    | some amount =>
      if amount ≤ 0 then ("END Invalid amount. Please try again.", db)
      else ("CON Select Payment Type:\n1. Cash\n2. M-Pesa", db)
  else if menu_level = 4 then
    let customer_phone := menu_selections.getD 1 ""
    match pyFloat? (menu_selections.getD 2 "") with
    | none => ("END Invalid transaction. Please try again.", db)
    | some amount =>
      let payment_choice := menu_selections.getD 3 ""
      let pt : Option PaymentType :=
        if payment_choice == "1" then some PaymentType.CASH
        else if payment_choice == "2" then some PaymentType.MPESA
        else none
      match pt with
      | none => ("END Invalid payment type. Please try again.", db)
      | some payment_type =>
        match db.findVendor vendor_phone with
        | none => ("END Vendor not found. Please register first.", db)
        | some vendor =>
          let db1 :=
            match db.findCustomer customer_phone with
            | some _ => db
            | none => db.addCustomer { phone_number := customer_phone, kula_points := 0, credit_limit := 0 }
          let db2 := db1.addTransaction
            { vendor_id := vendor.id, customer_phone := customer_phone,
              amount := amount, payment_type := payment_type }
          let ap := award_points customer_phone amount db2
          let ce := check_credit_eligibility customer_phone ap.2
          ("END Sale successful! Amount: " ++ (formatQ2 amount ++ (", Payment: " ++
            (payment_type.value ++ (". Customer earned " ++ (formatQ2 ap.1 ++ " points."))))), ce.2)
  else ("END Invalid selection. Please try again.", db)

/-- Embedding of ussd_logic.handle_check_points (read-only in all branches). -/
def handle_check_points (menu_selections : List String) (menu_level : Nat)
    (phone_number : String) (db : DB) : String × DB :=
  if menu_level = 1 then ("CON Enter Customer Phone Number:", db)
  else if menu_level = 2 then
    let customer_phone := menu_selections.getD 1 ""
    let points_info := get_customer_points_info customer_phone db
    if decide (points_info.points = 0) && pyContainsSub points_info.message "not found" then
      ("END Customer not found.", db)
    else ("END " ++ points_info.message, db)
  else ("END Invalid selection. Please try again.", db)

/-- Embedding of ussd_logic.handle_credit.  The at_utils.repay_loan call on
the loan path is an outbound-messaging mock with no database effect and is
therefore not represented in the state. -/
def handle_credit (menu_selections : List String) (menu_level : Nat)
    (vendor_phone : String) (db : DB) : String × DB :=
  if menu_level = 1 then ("CON Enter Customer Phone Number:", db)
  else if menu_level = 2 then
    let customer_phone := menu_selections.getD 1 ""
    let ce := check_credit_eligibility customer_phone db
    if !ce.1.eligible then ("END " ++ ce.1.message, ce.2)
    else ("CON " ++ (ce.1.message ++ "\n1. Accept Loan\n2. Back"), ce.2)
  else if menu_level = 3 then
    let customer_phone := menu_selections.getD 1 ""
    let choice := menu_selections.getD 2 ""
    if choice == "2" then
      ("CON Welcome to KulaPay\n1. New Sale\n2. Check Points\n3. Credit", db)
    else if choice == "1" then
      let ce := check_credit_eligibility customer_phone db
      let db1 := ce.2
      if !ce.1.eligible then ("END Credit not available. Please try again.", db1)
      else
        match db1.findVendor vendor_phone with
        | none => ("END Vendor not found. Please register first.", db1)
        | some vendor =>
          match db1.findCustomer customer_phone with
          | none => ("END Customer not found.", db1)
          | some customer =>
            let loan_amount := customer.credit_limit
            let db2 := db1.addTransaction
              { vendor_id := vendor.id, customer_phone := customer_phone,
                amount := loan_amount, payment_type := PaymentType.CREDIT }
            ("END Loan approved! Amount: " ++ (formatQ2 loan_amount ++
              " KES. Repayment will be processed via M-Pesa."), db2)
    else ("END Invalid selection. Please try again.", db)
  else ("END Invalid selection. Please try again.", db)

/-- Embedding of ussd_logic.handle_ussd_request: decode the cumulative text,
answer the root menu at level 0, and otherwise dispatch on the first step
token.  The session id is carried only for logging and never consulted. -/
def handle_ussd_request (text : String) (phone_number : String) (session_id : String)
    (db : DB) : String × DB :=
  let menu_selections := parse_ussd_text text
  let menu_level := get_menu_level text
  if menu_level = 0 then ("END Welcome to KulaPay!", db)
  else
    let first_selection := menu_selections.headD ""
    if first_selection == "1" then handle_new_sale menu_selections menu_level phone_number db
    else if first_selection == "2" then handle_check_points menu_selections menu_level phone_number db
    else if first_selection == "3" then handle_credit menu_selections menu_level phone_number db
    else ("END Invalid selection. Please try again.", db)

/-- Embedding of whatsapp_logic.process_sale_command: parse the positional
arguments of sale phone amount payment, validate, and run the shared sale
effects (vendor lookup, lazy customer creation, transaction insert, point
award, eligibility recheck). -/
def process_sale_command (message : String) (vendor_phone : String) (db : DB) : String × DB :=
  let parts := pySplitWs message
  if parts.length < 4 then ("❌ Invalid format. Use: sale <phone> <amount> <cash|mpesa>", db)
  else
    let customer_phone := parts.getD 1 ""
    match pyFloat? (parts.getD 2 "") with
    | none => ("❌ Invalid amount. Please use a number.", db)
    | some amount =>
      let payment_str := pyLower (parts.getD 3 "")
      if amount ≤ 0 then ("❌ Amount must be greater than 0", db)
      else
        let pt : Option PaymentType :=
          if payment_str == "cash" then some PaymentType.CASH
          else if payment_str == "mpesa" || payment_str == "m-pesa" || payment_str == "m pesa" then
            some PaymentType.MPESA
          else none
        match pt with
        | none => ("❌ Payment type must be \x27cash\x27 or \x27mpesa\x27", db)
        | some payment_type =>
          match db.findVendor vendor_phone with
          | none => ("❌ Vendor not found. Please register first.", db)
          | some vendor =>
            let db1 :=
              match db.findCustomer customer_phone with
              | some _ => db
              | none => db.addCustomer { phone_number := customer_phone, kula_points := 0, credit_limit := 0 }
            let db2 := db1.addTransaction
              { vendor_id := vendor.id, customer_phone := customer_phone,
                amount := amount, payment_type := payment_type }
            let ap := award_points customer_phone amount db2
            let ce := check_credit_eligibility customer_phone ap.2
            let customer := (ce.2.findCustomer customer_phone).getD
              { phone_number := customer_phone, kula_points := 0, credit_limit := 0 }
            ("✅ Sale successful!\n\nAmount: " ++ (formatQ2 amount ++ (" KES\nPayment: " ++
              (payment_type.value ++ ("\nPoints earned: " ++ (formatQ2 ap.1 ++
              ("\n\nCustomer now has " ++ (formatQ2 customer.kula_points ++ " total points."))))))), ce.2)

/-- Embedding of MessagingService.parse_kula_command / the identical
at_utils grammar: keyword check (case-insensitive), at least three argument
tokens, a positive numeric amount in the last token, and a phone token of at
least 9 characters; every failure returns the all-None rejection value,
modelled as none. -/
def parse_kula_command (text : String) : Option (String × String × String × ℚ) :=
  if text = "" then none
  else
    let t := pyStrip text
    if pyStartsWith (pyUpper t) "KULA" = false then none
    else
      let parts := pySplitWs (pyStrip (pyDropChars 4 t))
      if parts.length < 3 then none
      else
        let customer_phone := parts.getD 0 ""
        let item := pyJoin " " ((parts.drop 1).dropLast)
        let amount_str := parts.getLastD ""
        match pyFloat? amount_str with
        | none => none
        | some amount =>
          if amount ≤ 0 then none
          else if customer_phone.length < 9 then none
          else some ("KULA", customer_phone, item, amount)

/-- Embedding of at_utils.format_phone_number (MessagingService carries an
identical copy): strip whitespace, remove spaces and hyphens, then normalize
to the +254 international form, defaulting to the domestic-number branch. -/
def format_phone_number (phone : String) : String :=
  let p := pyRemoveChar '-' (pyRemoveChar ' ' (pyStrip phone))
  if pyStartsWith p "+" then p
  else if pyStartsWith p "0" then "+254" ++ pyDropChars 1 p
  else if pyStartsWith p "254" then "+" ++ p
  else "+254" ++ p

/-- Result dictionary of messaging_handler.process_kula_sale.  The failure
dictionary in the source omits the numeric keys; the embedding fills them
with zeros, which no caller reads on the failure path. -/
structure KulaSaleResult where
  success : Bool
  message : String
  customer_phone : String
  points_earned : ℚ
  total_points : ℚ
  credit_limit : ℚ
  credit_eligible : Bool
deriving DecidableEq

/-- Embedding of messaging_handler.process_kula_sale: vendor must pre-exist,
the customer is created lazily, one CASH transaction is inserted, points are
awarded and eligibility is rechecked; the refreshed customer row supplies
the totals reported in the result. -/
def process_kula_sale (vendor_phone customer_phone item : String) (amount : ℚ)
    (db : DB) : KulaSaleResult × DB :=
  match db.findVendor vendor_phone with
  | none =>
    ({ success := false,
       message := "Vendor " ++ (vendor_phone ++ " not found. Please register first."),
       customer_phone := customer_phone, points_earned := 0, total_points := 0,
       credit_limit := 0, credit_eligible := false }, db)
  | some vendor =>
    let db1 :=
      match db.findCustomer customer_phone with
      | some _ => db
      | none => db.addCustomer { phone_number := customer_phone, kula_points := 0, credit_limit := 0 }
    let db2 := db1.addTransaction
      { vendor_id := vendor.id, customer_phone := customer_phone,
        amount := amount, payment_type := PaymentType.CASH }
    let ap := award_points customer_phone amount db2
    let ce := check_credit_eligibility customer_phone ap.2
    let customer := (ce.2.findCustomer customer_phone).getD
      { phone_number := customer_phone, kula_points := 0, credit_limit := 0 }
    let response_message :=
      "Sale Recorded! Customer " ++ (customer_phone ++ (" earned " ++ (formatQ2 ap.1 ++
        (" points. Total points: " ++ (formatQ2 customer.kula_points ++
        (". Credit Limit: " ++ (formatQ2 customer.credit_limit ++ "."))))))) ++
      (if ce.1.eligible then " Credit Eligible!" else "")
    ({ success := true, message := response_message, customer_phone := customer_phone,
       points_earned := ap.1, total_points := customer.kula_points,
       credit_limit := customer.credit_limit, credit_eligible := ce.1.eligible }, ce.2)

/-- Models the decision core of the unified messaging callback in main.py
after transport extraction has produced a sender and a text: missing fields
or an unparseable KULA command yield an HTTP 400 client-error outcome with
the database untouched; otherwise the sale is processed and 200 returned.
Outbound send_sms / send_whatsapp calls are external and carry no database
effect. -/
def messaging_callback (sender text : String) (db : DB) : Nat × DB :=
  if sender == "" || text == "" then (400, db)
  else
    match parse_kula_command text with
    | none => (400, db)
    | some r =>
      let pr := process_kula_sale sender r.2.1 r.2.2.1 r.2.2.2 db
      (200, pr.2)

/-- Projection of a Customer row to the fields that the continuation-frame
property (claim C1, amended) asserts are untouched: identity and points. -/
def custKey (c : Customer) : String × ℚ := (c.phone_number, c.kula_points)

/-- Frame relation between a pre-state and a post-state: vendors and
transactions are exactly unchanged, and the customer table has the same rows
in the same order with unchanged phone numbers and points (at most the
credit_limit field of existing rows may differ). -/
def frameOK (db db1 : DB) : Prop :=
  db1.vendors = db.vendors ∧ db1.transactions = db.transactions ∧
    db1.customers.map custKey = db.customers.map custKey

/-- The non-Credit transaction history of a customer, exactly the aggregate
queried by the eligibility policy. -/
def nonCreditTransactions (customer_phone : String) (db : DB) : List Transaction :=
  db.transactions.filter
    (fun t => t.customer_phone == customer_phone && !(t.payment_type == PaymentType.CREDIT))

/-- The whitespace-and-hyphen stripping step of phone normalization. -/
def cleanPhone (phone : String) : String :=
  pyRemoveChar '-' (pyRemoveChar ' ' (pyStrip phone))

/-- A database holding exactly one registered vendor and nothing else. -/
def dbVendor : DB :=
  { vendors := [{ id := 1, phone_number := "0711111111", business_name := "Mama Njeri Foods" }],
    customers := [], transactions := [] }

/-- A database whose single customer has five prior 200 KES cash purchases
(total spend 1000) but a stored credit limit of 0. -/
def dbCreditReady : DB :=
  { vendors := [],
    customers := [{ phone_number := "0788888888", kula_points := 0, credit_limit := 0 }],
    transactions :=
      [ { vendor_id := 1, customer_phone := "0788888888", amount := 200, payment_type := PaymentType.CASH },
        { vendor_id := 1, customer_phone := "0788888888", amount := 200, payment_type := PaymentType.CASH },
        { vendor_id := 1, customer_phone := "0788888888", amount := 200, payment_type := PaymentType.CASH },
        { vendor_id := 1, customer_phone := "0788888888", amount := 200, payment_type := PaymentType.CASH },
        { vendor_id := 1, customer_phone := "0788888888", amount := 200, payment_type := PaymentType.CASH } ] }

/-- The empty database. -/
def dbEmpty : DB := { vendors := [], customers := [], transactions := [] }

/-- Five non-Credit transactions totalling 2000 KES for one phone number. -/
def dbSpend2000 : DB :=
  { vendors := [], customers := [],
    transactions :=
      [ { vendor_id := 1, customer_phone := "0788888888", amount := 400, payment_type := PaymentType.CASH },
        { vendor_id := 1, customer_phone := "0788888888", amount := 400, payment_type := PaymentType.CASH },
        { vendor_id := 1, customer_phone := "0788888888", amount := 400, payment_type := PaymentType.CASH },
        { vendor_id := 1, customer_phone := "0788888888", amount := 400, payment_type := PaymentType.CASH },
        { vendor_id := 1, customer_phone := "0788888888", amount := 400, payment_type := PaymentType.CASH } ] }

/-- Five non-Credit transactions totalling 1000 KES for one phone number. -/
def dbSpend1000 : DB :=
  { vendors := [], customers := [],
    transactions :=
      [ { vendor_id := 1, customer_phone := "0788888888", amount := 200, payment_type := PaymentType.CASH },
        { vendor_id := 1, customer_phone := "0788888888", amount := 200, payment_type := PaymentType.CASH },
        { vendor_id := 1, customer_phone := "0788888888", amount := 200, payment_type := PaymentType.CASH },
        { vendor_id := 1, customer_phone := "0788888888", amount := 200, payment_type := PaymentType.CASH },
        { vendor_id := 1, customer_phone := "0788888888", amount := 200, payment_type := PaymentType.CASH } ] }

/-- The frame relation is reflexive. -/
theorem frameOK_refl (db : DB) : frameOK db db := ⟨rfl, rfl, rfl⟩

/-- Updating only the credit_limit field of matching rows preserves the
custKey projection of the customer table. -/
theorem map_custKey_credit_update (cs : List Customer) (cp : String) (l : ℚ) :
    (cs.map (fun c => if c.phone_number == cp then { c with credit_limit := l } else c)).map custKey
      = cs.map custKey := by
  induction cs with
  | nil => rfl
  | cons a t ih =>
    simp only [List.map_cons, ih]
    congr 1
    split <;> rfl

/-- The eligibility check touches at most the credit_limit field of an
existing customer row: it satisfies the frame relation. -/
theorem check_credit_eligibility_frame (cp : String) (db : DB) :
    frameOK db (check_credit_eligibility cp db).2 := by
  unfold check_credit_eligibility
  dsimp only
  split
  · exact ⟨rfl, rfl, map_custKey_credit_update db.customers cp _⟩
  · exact frameOK_refl db

/-- Every branch of the new-sale handler either leaves the database exactly
unchanged or answers with a terminal END response. -/
theorem handle_new_sale_frame (sel : List String) (lvl : Nat) (vp : String) (db : DB) :
    (handle_new_sale sel lvl vp db).2 = db
      ∨ pyStartsWith (handle_new_sale sel lvl vp db).1 "CON" = false := by
  unfold handle_new_sale
  dsimp only
  repeat' split
  all_goals first
    | exact Or.inl rfl
    | exact Or.inr rfl

/-- The check-points handler never changes the database. -/
theorem handle_check_points_frame (sel : List String) (lvl : Nat) (ph : String) (db : DB) :
    (handle_check_points sel lvl ph db).2 = db := by
  unfold handle_check_points
  dsimp only
  repeat' split
  all_goals rfl

/-- Every branch of the credit handler either satisfies the frame relation
or answers with a terminal END response. -/
theorem handle_credit_frame (sel : List String) (lvl : Nat) (vp : String) (db : DB) :
    frameOK db (handle_credit sel lvl vp db).2
      ∨ pyStartsWith (handle_credit sel lvl vp db).1 "CON" = false := by
  unfold handle_credit
  dsimp only
  repeat' split
  all_goals first
    | exact Or.inl (frameOK_refl db)
    | exact Or.inr rfl
    | exact Or.inl (check_credit_eligibility_frame _ db)

/-- Every branch of the dispatcher either satisfies the frame relation or
answers with a terminal END response. -/
theorem handle_ussd_request_con_cases (text ph sid : String) (db : DB) :
    frameOK db (handle_ussd_request text ph sid db).2
      ∨ pyStartsWith (handle_ussd_request text ph sid db).1 "CON" = false := by
  unfold handle_ussd_request
  dsimp only
  repeat' split
  · exact Or.inr rfl
  · rcases handle_new_sale_frame (parse_ussd_text text) (get_menu_level text) ph db with h | h
    · exact Or.inl (by rw [h]; exact frameOK_refl db)
    · exact Or.inr h
  · exact Or.inl
      (by rw [handle_check_points_frame (parse_ussd_text text) (get_menu_level text) ph db]
          exact frameOK_refl db)
  · exact handle_credit_frame (parse_ussd_text text) (get_menu_level text) ph db
  · exact Or.inr rfl

/-- C1 counterexample: the credit sub-flow at level 2 returns a CON
continuation for an eligible customer and at the same time persists the
recomputed credit limit onto the Customer row (0 becomes 200), so a CON
response does not always leave the database state unchanged. -/
theorem ussd_con_writes_credit_limit :
    pyStartsWith (handle_ussd_request "3*0788888888" "0711111111" "s1" dbCreditReady).1 "CON" = true
    ∧ (handle_ussd_request "3*0788888888" "0711111111" "s1" dbCreditReady).2 ≠ dbCreditReady
    ∧ ((handle_ussd_request "3*0788888888" "0711111111" "s1" dbCreditReady).2.findCustomer
        "0788888888").map Customer.credit_limit = some 200 := by
  with_unfolding_all decide

/-- C1 amended: whenever handle_ussd_request returns a CON continuation, no
Vendor or Transaction row is created or modified, no Customer row is created
or deleted, and every customer keeps its phone number and kula_points; the
only possible write on a CON step is the credit_limit update performed by
the eligibility check that the credit sub-flow displays at level 2. -/
theorem ussd_con_frame_effect (text ph sid : String) (db : DB)
    (h : pyStartsWith (handle_ussd_request text ph sid db).1 "CON" = true) :
    frameOK db (handle_ussd_request text ph sid db).2 := by
  rcases handle_ussd_request_con_cases text ph sid db with hc | hc
  · exact hc
  · rw [h] at hc
    cases hc

/-- C1 witness: a concrete CON step (level 1 of the new-sale flow) for which
the amended frame property is instantiated. -/
theorem ussd_con_frame_effect_witness :
    pyStartsWith (handle_ussd_request "1" "0711111111" "s1" dbVendor).1 "CON" = true
    ∧ frameOK dbVendor (handle_ussd_request "1" "0711111111" "s1" dbVendor).2 :=
  ⟨by decide, ussd_con_frame_effect "1" "0711111111" "s1" dbVendor (by decide)⟩

/-- C2: replaying the identical complete record-sale text against the
handler (a gateway retry of a completed flow) is not idempotent: the first
run inserts one Transaction and brings the customer to 50 points, and the
second run inserts a second Transaction and awards the points again (total
100), contradicting the one-award-per-transaction invariant of the claim. -/
theorem ussd_retry_double_commit :
    (handle_ussd_request "1*0722222222*500*1" "0711111111" "s1" dbVendor).2.transactions.length = 1
    ∧ ((handle_ussd_request "1*0722222222*500*1" "0711111111" "s1" dbVendor).2.findCustomer
        "0722222222").map Customer.kula_points = some 50
    ∧ (handle_ussd_request "1*0722222222*500*1" "0711111111" "s2"
        (handle_ussd_request "1*0722222222*500*1" "0711111111" "s1" dbVendor).2).2.transactions.length = 2
    ∧ ((handle_ussd_request "1*0722222222*500*1" "0711111111" "s2"
        (handle_ussd_request "1*0722222222*500*1" "0711111111" "s1" dbVendor).2).2.findCustomer
          "0722222222").map Customer.kula_points = some 100 := by
  with_unfolding_all decide

/-- C3 counterexample: for a phone number with no Vendor record, the step
sequence that the claim says must end the session with success and create
exactly one Vendor is instead answered with END Invalid selection, and the
vendor table stays empty: no onboarding variant runs. -/
theorem ussd_onboarding_missing :
    (handle_ussd_request "Jane*Jane\x27s Kitchen*1234" "0733333333" "s1" dbEmpty).1
        = "END Invalid selection. Please try again."
    ∧ (handle_ussd_request "Jane*Jane\x27s Kitchen*1234" "0733333333" "s1" dbEmpty).2.vendors = [] :=
  ⟨rfl, rfl⟩

/-- C3 amended: handle_ussd_request has no onboarding variant: requests are
routed solely by the first step token, never by whether a Vendor exists for
the calling phone, so both onboarding step sequences of the claim (with the
valid PIN 1234 and with the invalid PIN 12a4) end the session with END
Invalid selection and leave every database unchanged, creating no Vendor. -/
theorem ussd_no_onboarding_variant (db : DB) (ph sid : String) :
    handle_ussd_request "Jane*Jane\x27s Kitchen*1234" ph sid db
        = ("END Invalid selection. Please try again.", db)
    ∧ handle_ussd_request "Jane*Jane\x27s Kitchen*12a4" ph sid db
        = ("END Invalid selection. Please try again.", db) :=
  ⟨rfl, rfl⟩

/-- The Python builtin min agrees with the order-theoretic min on ℚ. -/
theorem pyMin_eq_min (a b : ℚ) : pyMin a b = min a b := by
  unfold pyMin
  split
  · exact (min_eq_left (by assumption)).symm
  · exact (min_eq_right (le_of_not_le (by assumption))).symm

/-- C4: check_credit_eligibility reports eligible exactly when the customer
has at least 5 non-Credit transactions whose amounts total at least 500; the
returned credit limit is min (0.2 times the total spend) 300 when eligible
and 0 otherwise; in particular total spend 2000 yields the capped limit 300
and total spend 1000 yields 200. -/
theorem check_credit_eligibility_spec :
    (∀ (cp : String) (db : DB),
      ((check_credit_eligibility cp db).1.eligible = true ↔
        5 ≤ (nonCreditTransactions cp db).length
          ∧ 500 ≤ ((nonCreditTransactions cp db).map Transaction.amount).sum)
      ∧ (check_credit_eligibility cp db).1.credit_limit =
          (if 5 ≤ (nonCreditTransactions cp db).length
              ∧ 500 ≤ ((nonCreditTransactions cp db).map Transaction.amount).sum
           then min ((0.2 : ℚ) * ((nonCreditTransactions cp db).map Transaction.amount).sum) 300
           else 0))
    ∧ (check_credit_eligibility "0788888888" dbSpend2000).1.credit_limit = 300
    ∧ (check_credit_eligibility "0788888888" dbSpend1000).1.credit_limit = 200 := by
  refine ⟨fun cp db => ?_, by with_unfolding_all decide, by with_unfolding_all decide⟩
  have he : (check_credit_eligibility cp db).1.eligible
      = (decide (5 ≤ (nonCreditTransactions cp db).length)
         && decide (500 ≤ ((nonCreditTransactions cp db).map Transaction.amount).sum)) := rfl
  have hl : (check_credit_eligibility cp db).1.credit_limit
      = (if (decide (5 ≤ (nonCreditTransactions cp db).length)
             && decide (500 ≤ ((nonCreditTransactions cp db).map Transaction.amount).sum)) = true
         then pyMin (((nonCreditTransactions cp db).map Transaction.amount).sum * CREDIT_LIMIT_PERCENTAGE)
                MAX_CREDIT_LIMIT
         else 0) := rfl
  constructor
  · rw [he]
    simp [Bool.and_eq_true, decide_eq_true_eq]
  · rw [hl]
    by_cases h : 5 ≤ (nonCreditTransactions cp db).length
        ∧ 500 ≤ ((nonCreditTransactions cp db).map Transaction.amount).sum
    · rw [if_pos h, if_pos (by simp [h.1, h.2])]
      rw [pyMin_eq_min]
      show min (((nonCreditTransactions cp db).map Transaction.amount).sum * (0.2 : ℚ)) 300 = _
      rw [mul_comm]
    · rw [if_neg h, if_neg (by simpa [Bool.and_eq_true, decide_eq_true_eq] using h)]

/-- C4 witness: the concrete 1000-spend database instantiating the limit
formula of the theorem. -/
theorem check_credit_eligibility_spec_witness :
    (check_credit_eligibility "0788888888" dbSpend1000).1.credit_limit = 200 :=
  check_credit_eligibility_spec.2.2

/-- C5: the USSD handler, given the complete level-4 text with the amount
token -5, re-parses the amount without repeating the positivity validation
of level 3 and commits a Transaction row with the negative amount -5 while
reporting a successful sale: the upstream-rejection invariant of the claim
fails on this path. -/
theorem ussd_nonpositive_amount_committed :
    (handle_ussd_request "1*0722222222*-5*1" "0711111111" "s1" dbVendor).2.transactions =
      [{ vendor_id := 1, customer_phone := "0722222222", amount := -5, payment_type := PaymentType.CASH }]
    ∧ pyStartsWith (handle_ussd_request "1*0722222222*-5*1" "0711111111" "s1" dbVendor).1
        "END Sale successful!" = true := by
  with_unfolding_all decide

/-- Appending a list on the right of a find?-free list searches the suffix. -/
theorem find?_append_of_none {α : Type} {p : α → Bool} {l1 : List α} (l2 : List α)
    (h : l1.find? p = none) : (l1 ++ l2).find? p = l2.find? p := by
  rw [List.find?_append, h, Option.none_or]

/-- A conditional rewrite over rows none of which satisfies the predicate is
the identity. -/
theorem map_cond_id_of_find?_none {α : Type} {p : α → Bool} (f : α → α) {l : List α}
    (h : l.find? p = none) : l.map (fun c => if p c then f c else c) = l := by
  rw [List.find?_eq_none] at h
  induction l with
  | nil => rfl
  | cons a t ih =>
    rw [List.map_cons]
    rw [if_neg (by simpa using h a (by simp))]
    rw [ih (fun x hx => h x (by simp [hx]))]

/-- Strengthening the predicate of an empty filter keeps it empty. -/
theorem filter_and_eq_nil {α : Type} {p : α → Bool} (q : α → Bool) {l : List α}
    (h : l.filter p = []) : l.filter (fun t => p t && q t) = [] := by
  rw [List.filter_eq_nil_iff] at h ⊢
  intro a ha
  simp [h a ha]

/-- C6: processing a KULA sale of amount 500 (payment kind Cash) for an
existing vendor and a customer phone with no prior Customer row and no prior
transactions earns 50 points (rate 0.1 per KES), leaves the freshly created
customer at 50 kula_points, and reports not eligible with credit limit 0
since one transaction is fewer than the required five. -/
theorem process_kula_sale_fresh_customer (db : DB) (vp cp item : String) (v : Vendor)
    (hv : db.findVendor vp = some v)
    (hc : db.findCustomer cp = none)
    (ht : db.transactions.filter (fun t => t.customer_phone == cp) = []) :
    (process_kula_sale vp cp item 500 db).1.success = true
    ∧ (process_kula_sale vp cp item 500 db).1.points_earned = 50
    ∧ (process_kula_sale vp cp item 500 db).1.total_points = 50
    ∧ (process_kula_sale vp cp item 500 db).1.credit_eligible = false
    ∧ (process_kula_sale vp cp item 500 db).1.credit_limit = 0
    ∧ (process_kula_sale vp cp item 500 db).2.findCustomer cp
        = some { phone_number := cp, kula_points := 50, credit_limit := 0 } := by
  have hc' : db.customers.find? (fun c => c.phone_number == cp) = none := hc
  have h50 : (0 : ℚ) + 500 * POINTS_PER_KES = 50 := by with_unfolding_all decide
  have h50e : (500 : ℚ) * POINTS_PER_KES = 50 := by with_unfolding_all decide
  have hstep1 : award_points cp 500
      ((db.addCustomer { phone_number := cp, kula_points := 0, credit_limit := 0 }).addTransaction
        { vendor_id := v.id, customer_phone := cp, amount := 500, payment_type := PaymentType.CASH })
      = (50, { vendors := db.vendors,
               customers := db.customers ++ [{ phone_number := cp, kula_points := 50, credit_limit := 0 }],
               transactions := db.transactions ++
                 [{ vendor_id := v.id, customer_phone := cp, amount := 500, payment_type := PaymentType.CASH }] }) := by
    unfold award_points
    have hfind2 : ((db.addCustomer { phone_number := cp, kula_points := 0, credit_limit := 0 }).addTransaction
        { vendor_id := v.id, customer_phone := cp, amount := 500, payment_type := PaymentType.CASH }).findCustomer cp
        = some { phone_number := cp, kula_points := 0, credit_limit := 0 } := by
      show (db.customers ++ [({ phone_number := cp, kula_points := 0, credit_limit := 0 } : Customer)]).find?
          (fun (c : Customer) => c.phone_number == cp) = _
      rw [find?_append_of_none _ hc']
      simp [List.find?]
    rw [hfind2]
    dsimp only [DB.updateCustomer, DB.addTransaction, DB.addCustomer]
    rw [List.map_append, map_cond_id_of_find?_none _ hc']
    simp [h50, h50e]
  have hfilt : (db.transactions ++
        [({ vendor_id := v.id, customer_phone := cp, amount := 500, payment_type := PaymentType.CASH } : Transaction)]).filter
        (fun (t : Transaction) => t.customer_phone == cp && !(t.payment_type == PaymentType.CREDIT))
      = [({ vendor_id := v.id, customer_phone := cp, amount := 500, payment_type := PaymentType.CASH } : Transaction)] := by
    rw [List.filter_append, filter_and_eq_nil _ ht]
    simp
  have hfind3 : (db.customers ++ [({ phone_number := cp, kula_points := 50, credit_limit := 0 } : Customer)]).find?
        (fun (c : Customer) => c.phone_number == cp)
      = some ({ phone_number := cp, kula_points := 50, credit_limit := 0 } : Customer) := by
    rw [find?_append_of_none _ hc']
    simp [List.find?]
  simp only [process_kula_sale, hv, hc, hstep1]
  simp only [check_credit_eligibility, DB.findCustomer, hfilt, hfind3]
  simp [MIN_TRANSACTIONS_FOR_CREDIT, MIN_SPEND_FOR_CREDIT, hc']

/-- C6 witness: the fresh-customer sale on the concrete one-vendor
database. -/
theorem process_kula_sale_fresh_customer_witness :
    (process_kula_sale "0711111111" "0722222222" "Chapati" 500 dbVendor).1.success = true
    ∧ (process_kula_sale "0711111111" "0722222222" "Chapati" 500 dbVendor).1.points_earned = 50
    ∧ (process_kula_sale "0711111111" "0722222222" "Chapati" 500 dbVendor).1.total_points = 50
    ∧ (process_kula_sale "0711111111" "0722222222" "Chapati" 500 dbVendor).1.credit_eligible = false
    ∧ (process_kula_sale "0711111111" "0722222222" "Chapati" 500 dbVendor).1.credit_limit = 0
    ∧ (process_kula_sale "0711111111" "0722222222" "Chapati" 500 dbVendor).2.findCustomer "0722222222"
        = some { phone_number := "0722222222", kula_points := 50, credit_limit := 0 } :=
  process_kula_sale_fresh_customer dbVendor "0711111111" "0722222222" "Chapati"
    { id := 1, phone_number := "0711111111", business_name := "Mama Njeri Foods" }
    (by decide) (by decide) (by decide)

/-- C7: for any registered vendor, delimiter-free customer phone and amount
token parsing to a positive amount, the chat command sale phone amount cash
leaves the database in exactly the state produced by the complete four-level
USSD record-sale flow with the same phone, amount and Cash selection: both
paths insert the same Transaction, award the same points and run the same
eligibility update. -/
theorem chat_sale_refines_ussd_sale (db : DB) (vp cp amtStr sid : String) (a : ℚ) (v : Vendor)
    (hsplit1 : splitBy (fun c => c == '*') ("1*" ++ cp ++ "*" ++ amtStr ++ "*1") = ["1", cp, amtStr, "1"])
    (hsplit2 : pySplitWs ("sale " ++ cp ++ " " ++ amtStr ++ " cash") = ["sale", cp, amtStr, "cash"])
    (hamt : pyFloat? amtStr = some a)
    (hpos : 0 < a)
    (hv : db.findVendor vp = some v) :
    (handle_ussd_request ("1*" ++ cp ++ "*" ++ amtStr ++ "*1") vp sid db).2
      = (process_sale_command ("sale " ++ cp ++ " " ++ amtStr ++ " cash") vp db).2 := by
  have hne : ¬ ("1*" ++ cp ++ "*" ++ amtStr ++ "*1") = "" := by
    intro he
    rw [he] at hsplit1
    rw [show splitBy (fun c => c == '*') "" = [""] from rfl] at hsplit1
    simp at hsplit1
  have hparse : parse_ussd_text ("1*" ++ cp ++ "*" ++ amtStr ++ "*1") = ["1", cp, amtStr, "1"] := by
    unfold parse_ussd_text
    rw [if_neg hne]
    exact hsplit1
  have hlevel : get_menu_level ("1*" ++ cp ++ "*" ++ amtStr ++ "*1") = 4 := by
    unfold get_menu_level
    rw [if_neg hne, hsplit1]
    rfl
  have hle : ¬ (a ≤ 0) := not_le.mpr hpos
  simp only [handle_ussd_request, hparse, hlevel]
  simp only [handle_new_sale, process_sale_command, hsplit2, List.getD_cons_succ,
    List.getD_cons_zero, List.headD_cons]
  simp [hamt, hv, hle, show pyLower "cash" = "cash" from rfl]

set_option maxRecDepth 4096 in
/-- C7 witness: the refinement instantiated with the concrete command sale
0712345678 500 cash against the one-vendor database. -/
theorem chat_sale_refines_ussd_sale_witness :
    (handle_ussd_request ("1*" ++ "0712345678" ++ "*" ++ "500" ++ "*1") "0711111111" "s1" dbVendor).2
      = (process_sale_command ("sale " ++ "0712345678" ++ " " ++ "500" ++ " cash") "0711111111" dbVendor).2 :=
  chat_sale_refines_ussd_sale dbVendor "0711111111" "0712345678" "500" "s1" 500
    { id := 1, phone_number := "0711111111", business_name := "Mama Njeri Foods" }
    (by decide) (by decide) (by with_unfolding_all decide) (by with_unfolding_all decide)
    (by decide)

/-- C8: parse_kula_command returns the rejection value exactly when the
(stripped) text does not start with the KULA keyword case-insensitively, or
fewer than 3 whitespace tokens remain after the keyword, or the last token
does not parse as a number greater than 0, or the phone token has fewer than
the documented minimum of 9 characters; and the unified callback answers the
malformed text INVALID COMMAND with the 400 client-error outcome while
leaving the database (hence Transactions and Customers) untouched. -/
theorem parse_kula_command_rejects :
    (∀ text : String,
      parse_kula_command text = none ↔
        pyStartsWith (pyUpper (pyStrip text)) "KULA" = false
        ∨ (pySplitWs (pyStrip (pyDropChars 4 (pyStrip text)))).length < 3
        ∨ (∀ a : ℚ,
            pyFloat? ((pySplitWs (pyStrip (pyDropChars 4 (pyStrip text)))).getLastD "") = some a →
              a ≤ 0)
        ∨ ((pySplitWs (pyStrip (pyDropChars 4 (pyStrip text)))).getD 0 "").length < 9)
    ∧ (∀ db : DB, messaging_callback "+254712345678" "INVALID COMMAND" db = (400, db)) := by
  refine ⟨fun text => ?_, fun db => rfl⟩
  by_cases h0 : text = ""
  · subst h0
    constructor
    · intro _
      exact Or.inl (by decide)
    · intro _
      rfl
  · unfold parse_kula_command
    rw [if_neg h0]
    dsimp only
    by_cases hk : pyStartsWith (pyUpper (pyStrip text)) "KULA" = false
    · rw [if_pos hk]
      exact iff_of_true rfl (Or.inl hk)
    · rw [if_neg hk]
      by_cases hl : (pySplitWs (pyStrip (pyDropChars 4 (pyStrip text)))).length < 3
      · rw [if_pos hl]
        exact iff_of_true rfl (Or.inr (Or.inl hl))
      · rw [if_neg hl]
        cases hm : pyFloat? ((pySplitWs (pyStrip (pyDropChars 4 (pyStrip text)))).getLastD "") with
        | none =>
          refine iff_of_true rfl (Or.inr (Or.inr (Or.inl ?_)))
          intro a ha
          exact Option.noConfusion ha
        | some a =>
          dsimp only
          by_cases ha : a ≤ 0
          · rw [if_pos ha]
            refine iff_of_true rfl (Or.inr (Or.inr (Or.inl ?_)))
            intro b hb
            cases hb
            exact ha
          · rw [if_neg ha]
            by_cases hp : ((pySplitWs (pyStrip (pyDropChars 4 (pyStrip text)))).getD 0 "").length < 9
            · rw [if_pos hp]
              exact iff_of_true rfl (Or.inr (Or.inr (Or.inr hp)))
            · rw [if_neg hp]
              refine iff_of_false (by simp) ?_
              rintro (h | h | h | h)
              · exact hk h
              · exact hl h
              · exact ha (h a rfl)
              · exact hp h

/-- C8 witness: the malformed text of the claim is rejected, instantiating
the keyword disjunct of the theorem. -/
theorem parse_kula_command_rejects_witness :
    parse_kula_command "INVALID COMMAND" = none :=
  (parse_kula_command_rejects.1 "INVALID COMMAND").mpr (Or.inl (by decide))

/-- C9: phone normalization is a total function on strings satisfying the
four documented examples, and on any input whose cleaned form starts with
neither a plus sign, a leading zero, nor the bare country code, it falls
through to the default branch that prefixes the domestic country code after
whitespace and hyphens are stripped. -/
theorem format_phone_number_spec :
    format_phone_number "0712345678" = "+254712345678"
    ∧ format_phone_number "+254712345678" = "+254712345678"
    ∧ format_phone_number "254712345678" = "+254712345678"
    ∧ format_phone_number "712345678" = "+254712345678"
    ∧ ∀ phone : String,
        pyStartsWith (cleanPhone phone) "+" = false →
        pyStartsWith (cleanPhone phone) "0" = false →
        pyStartsWith (cleanPhone phone) "254" = false →
        format_phone_number phone = "+254" ++ cleanPhone phone := by
  refine ⟨by decide, by decide, by decide, by decide, fun phone h1 h2 h3 => ?_⟩
  unfold format_phone_number
  rw [show pyRemoveChar '-' (pyRemoveChar ' ' (pyStrip phone)) = cleanPhone phone from rfl]
  dsimp only
  rw [h1, h2, h3]
  rfl

/-- C9 witness: an input with embedded whitespace and hyphen exercising the
default branch of the theorem. -/
theorem format_phone_number_spec_witness :
    format_phone_number "712 345-678" = "+254712345678" := by
  have h := format_phone_number_spec.2.2.2.2 "712 345-678" (by decide) (by decide) (by decide)
  rw [h]
  decide

/-- C10: the session decoder maps empty text to zero step tokens and level
0; non-empty text is split on the star delimiter with empty intermediate
tokens preserved (1**3 decodes to three tokens, the middle one empty); and
the reported menu level always equals the number of decoded step tokens. -/
theorem session_decoder_spec :
    parse_ussd_text "" = []
    ∧ get_menu_level "" = 0
    ∧ parse_ussd_text "1**3" = ["1", "", "3"]
    ∧ (∀ text : String, text ≠ "" → parse_ussd_text text = splitBy (fun c => c == '*') text)
    ∧ (∀ text : String, get_menu_level text = (parse_ussd_text text).length) := by
  refine ⟨rfl, rfl, by decide, fun text h => ?_, fun text => ?_⟩
  · unfold parse_ussd_text
    rw [if_neg h]
  · by_cases h : text = ""
    · rw [h]
      rfl
    · unfold get_menu_level parse_ussd_text
      rw [if_neg h, if_neg h]

/-- C10 witness: the decoder equations instantiated on a concrete two-step
text. -/
theorem session_decoder_spec_witness :
    parse_ussd_text "1*2" = splitBy (fun c => c == '*') "1*2"
    ∧ get_menu_level "1*2" = (parse_ussd_text "1*2").length :=
  ⟨session_decoder_spec.2.2.2.1 "1*2" (by decide), session_decoder_spec.2.2.2.2 "1*2"⟩
